import Mathlib

/-!
Shallow embedding of the `CartService` of the skinalyze back end and proofs
about it.  Cart state for a single user's cart key is an `Option Cart`
(`none` = no stored record); each service method is a function from that
state (plus its arguments and the responses of its collaborators) to an
`OpResult` recording the returned value or thrown exception, the stored
record afterwards, and the inventory-service calls issued, in order.
JavaScript numbers are modelled as rationals, timestamps as naturals.
-/

namespace Skinalyze

/-- Rounding used for discounted prices: JavaScript `Math.round`, which maps
`x` to the floor of `x + 1/2` (half-up, ties toward positive infinity). -/
def jsRound (x : ℚ) : ℤ := ⌊x + 1/2⌋

/-- Catalog record resolved by `ProductsService.findOne`: the fields of the
product that `addToCart` reads.  `salePercentage` is `number | null`. -/
structure Product where
  productId : String
  productName : String
  sellingPrice : ℚ
  salePercentage : Option ℚ
deriving DecidableEq

/-- Modelled from the spec: the `CartItem` interface itself
(`cart/interfaces/cart-item.interface.ts`) is not among the inspected
sources; its fields are those written by `CartService` and listed in the
spec's data model, with `selected` an optional boolean (absent/undefined is
`none`). -/
structure CartItem where
  productId : String
  productName : String
  price : ℚ
  originalPrice : ℚ
  salePercentage : ℚ
  quantity : ℤ
  addedAt : ℕ
  selected : Option Bool
deriving DecidableEq

/-- Cart record stored under the user's cart key. -/
structure Cart where
  userId : String
  items : List CartItem
  totalItems : ℤ
  totalPrice : ℚ
  updatedAt : ℕ
deriving DecidableEq

/-- Exceptions thrown by `CartService`: `NotFoundException` and
`BadRequestException`, with their messages. -/
inductive CartError where
  | notFound (msg : String)
  | badRequest (msg : String)
deriving DecidableEq

/-- Calls issued to the `InventoryService` collaborator. -/
inductive InvEvent where
  | reserve (productId : String) (qty : ℤ)
  | release (productId : String) (qty : ℤ)
deriving DecidableEq

/-- Outcome of one `CartService` mutation for one user: the cart returned or
the exception thrown, the stored record for the user's cart key afterwards,
and the inventory calls issued, in order. -/
structure OpResult where
  result : Except CartError Cart
  store : Option Cart
  events : List InvEvent

/-- Effect of applying `f` to the first element satisfying `p` (JavaScript
`findIndex` followed by an in-place update of that element). -/
def updateFirst {α : Type} (p : α → Bool) (f : α → α) : List α → List α
  | [] => []
  | x :: xs => if p x then f x :: xs else x :: updateFirst p f xs

/-- Effect of `findIndex` followed by `splice(index, 1)`: removing the first
element satisfying `p`. -/
def removeFirst {α : Type} (p : α → Bool) : List α → List α
  | [] => []
  | x :: xs => if p x then xs else x :: removeFirst p xs

/-- Total of `reduce((sum, item) => sum + item.quantity, 0)`. -/
def totalItemsOf (items : List CartItem) : ℤ :=
  (items.map (fun item => item.quantity)).sum

/-- Total of `reduce((sum, item) => sum + (item.price || 0) * item.quantity, 0)`;
`price || 0` is the identity in the rational model of a JavaScript number. -/
def totalPriceOf (items : List CartItem) : ℚ :=
  (items.map (fun item => item.price * (item.quantity : ℚ))).sum

/-- Key derivation of `CartService.getCartKey`. -/
def getCartKey (userId : String) : String := "cart:" ++ userId

/-- Expiry passed to every cache write, in milliseconds (24 hours). -/
def cartTtlMs : ℕ := 86400000

/-- Empty cart synthesized by `getCart` when no record is stored. -/
def emptyCart (userId : String) (now : ℕ) : Cart :=
  { userId := userId, items := [], totalItems := 0, totalPrice := 0, updatedAt := now }

/-- `CartService.getCart`: the stored record if present, else a synthesized
empty cart (which is not persisted). -/
def getCart (userId : String) (store : Option Cart) (now : ℕ) : Cart :=
  match store with
  | none => emptyCart userId now
  | some cart => cart

/-- `CartService.calculateFinalPrice`.  The source guard
`!salePercentage || salePercentage <= 0` is `none`-or-nonpositive in the
`Option` model (a JavaScript `0` is falsy and also `<= 0`). -/
def calculateFinalPrice (sellingPrice : ℚ) (salePercentage : Option ℚ) : ℚ :=
  match salePercentage with
  | none => sellingPrice
  | some sp =>
    if sp ≤ 0 then sellingPrice
    else
      let discount := sellingPrice * sp / 100
      let finalPrice := sellingPrice - discount
      (jsRound finalPrice : ℚ)

/-- Shared tail of the mutating methods: recompute both aggregate totals over
the new item list, stamp `updatedAt`, and produce the record to write. -/
def recalcCart (cart : Cart) (items : List CartItem) (now : ℕ) : Cart :=
  { cart with
    items := items
    totalItems := totalItemsOf items
    totalPrice := totalPriceOf items
    updatedAt := now }

/-- `CartService.addToCart`.  `catalog` models `ProductsService.findOne`
(`none` = product unknown) and `reserveOk` models whether
`InventoryService.reserveStock` reports success for a given product and
quantity. -/
def addToCart (catalog : String → Option Product) (reserveOk : String → ℤ → Bool)
    (userId productId : String) (quantity : ℤ)
    (store : Option Cart) (now : ℕ) : OpResult :=
  match catalog productId with
  | none =>
      { result := Except.error (CartError.notFound
          ("Product with ID " ++ productId ++ " not found"))
        store := store
        events := [] }
  | some product =>
      let cart := getCart userId store now
      let itemExists := cart.items.any (fun item => item.productId == productId)
      if reserveOk productId quantity then
        let finalPrice := calculateFinalPrice product.sellingPrice product.salePercentage
        let items :=
          if itemExists then
            updateFirst (fun item => item.productId == productId)
              (fun item =>
                { item with
                  quantity := item.quantity + quantity
                  price := finalPrice
                  originalPrice := product.sellingPrice
                  salePercentage := product.salePercentage.getD 0 })
              cart.items
          else
            cart.items ++ [{ productId := productId
                             productName := product.productName
                             price := finalPrice
                             originalPrice := product.sellingPrice
                             salePercentage := product.salePercentage.getD 0
                             quantity := quantity
                             addedAt := now
                             selected := some true }]
        let cart' := recalcCart cart items now
        { result := Except.ok cart'
          store := some cart'
          events := [InvEvent.reserve productId quantity] }
      else
        { result := Except.error (CartError.badRequest "Không đủ hàng trong kho")
          store := store
          events := [InvEvent.reserve productId quantity] }

/-- `CartService.updateCartItem`. -/
def updateCartItem (reserveOk : String → ℤ → Bool)
    (userId productId : String) (quantity : ℤ)
    (store : Option Cart) (now : ℕ) : OpResult :=
  if quantity ≤ 0 then
    { result := Except.error (CartError.badRequest "Quantity must be greater than 0")
      store := store
      events := [] }
  else
    let cart := getCart userId store now
    match cart.items.find? (fun item => item.productId == productId) with
    | none =>
        { result := Except.error (CartError.notFound
            ("Product with ID " ++ productId ++ " not found in cart"))
          store := store
          events := [] }
    | some oldItem =>
        let quantityDiff := quantity - oldItem.quantity
        let commit : List InvEvent → OpResult := fun events =>
          let items := updateFirst (fun item => item.productId == productId)
            (fun item => { item with quantity := quantity }) cart.items
          let cart' := recalcCart cart items now
          { result := Except.ok cart', store := some cart', events := events }
        if quantityDiff > 0 then
          if reserveOk productId quantityDiff then
            commit [InvEvent.reserve productId quantityDiff]
          else
            { result := Except.error (CartError.badRequest
                ("Cannot increase quantity. Only " ++ toString oldItem.quantity ++
                  " available in stock."))
              store := store
              events := [InvEvent.reserve productId quantityDiff] }
        else if quantityDiff < 0 then
          commit [InvEvent.release productId (abs quantityDiff)]
        else
          commit []

/-- `CartService.removeFromCart`. -/
def removeFromCart (userId productId : String)
    (store : Option Cart) (now : ℕ) : OpResult :=
  let cart := getCart userId store now
  match cart.items.find? (fun item => item.productId == productId) with
  | none =>
      { result := Except.error (CartError.notFound
          ("Product with ID " ++ productId ++ " not found in cart"))
        store := store
        events := [] }
  | some item =>
      let items := removeFirst (fun it => it.productId == productId) cart.items
      let cart' := recalcCart cart items now
      { result := Except.ok cart'
        store := if items.isEmpty then none else some cart'
        events := [InvEvent.release item.productId item.quantity] }

/-- `CartService.toggleSelectItem`.  Only the `selected` flag and `updatedAt`
change; the totals are not recomputed. -/
def toggleSelectItem (userId productId : String) (sel : Bool)
    (store : Option Cart) (now : ℕ) : OpResult :=
  let cart := getCart userId store now
  match cart.items.find? (fun item => item.productId == productId) with
  | none =>
      { result := Except.error (CartError.notFound "Product not found in cart")
        store := store
        events := [] }
  | some _ =>
      let items := updateFirst (fun item => item.productId == productId)
        (fun item => { item with selected := some sel }) cart.items
      let cart' := { cart with items := items, updatedAt := now }
      { result := Except.ok cart', store := some cart', events := [] }

/-- `CartService.toggleSelectAll`.  Writes the record back unconditionally,
even when the item list is empty. -/
def toggleSelectAll (userId : String) (sel : Bool)
    (store : Option Cart) (now : ℕ) : OpResult :=
  let cart := getCart userId store now
  let items := cart.items.map (fun item => { item with selected := some sel })
  let cart' := { cart with items := items, updatedAt := now }
  { result := Except.ok cart', store := some cart', events := [] }

/-- `CartService.getSelectedItems`: pure filter on `selected === true`. -/
def getSelectedItems (cart : Cart) : List CartItem :=
  cart.items.filter (fun item => item.selected == some true)

/-- `CartService.removeSelectedItems`: keep the items with
`selected !== true`, recompute totals, delete the record when empty. -/
def removeSelectedItems (userId : String)
    (store : Option Cart) (now : ℕ) : OpResult :=
  let cart := getCart userId store now
  let items := cart.items.filter (fun item => !(item.selected == some true))
  let cart' := recalcCart cart items now
  { result := Except.ok cart'
    store := if items.isEmpty then none else some cart'
    events := [] }

/-- Outcome of `CartService.clearCart` (which returns `void`): whether it ran
to completion without a collaborator exception, the stored record afterwards,
and the inventory calls issued. -/
structure ClearResult where
  ok : Bool
  store : Option Cart
  events : List InvEvent

/-- Release loop of `clearCart`.  `releaseThrows` tells whether a given
`releaseReservation` call throws; each call is awaited with no try/catch
around the loop body, so a thrown exception ends the loop. -/
def releaseLoop (releaseThrows : String → ℤ → Bool) :
    List CartItem → Bool × List InvEvent
  | [] => (true, [])
  | item :: rest =>
    if releaseThrows item.productId item.quantity then
      (false, [InvEvent.release item.productId item.quantity])
    else
      let r := releaseLoop releaseThrows rest
      (r.1, InvEvent.release item.productId item.quantity :: r.2)

/-- `CartService.clearCart`: release every item's reserved quantity, then
delete the record.  The delete is only reached when no release call threw. -/
def clearCart (releaseThrows : String → ℤ → Bool) (userId : String)
    (store : Option Cart) (now : ℕ) : ClearResult :=
  let cart := getCart userId store now
  let r := releaseLoop releaseThrows cart.items
  if r.1 then { ok := true, store := none, events := r.2 }
  else { ok := false, store := store, events := r.2 }

/-- `CartService.removeItemsByProductIds`. -/
def removeItemsByProductIds (userId : String) (productIds : List String)
    (store : Option Cart) (now : ℕ) : OpResult :=
  let cart := getCart userId store now
  if cart.items.isEmpty then
    { result := Except.error (CartError.notFound "Cart is empty")
      store := store
      events := [] }
  else
    let items := cart.items.filter (fun item => !(productIds.contains item.productId))
    if items.isEmpty then
      { result := Except.ok (emptyCart userId now), store := none, events := [] }
    else
      let cart' := recalcCart cart items now
      { result := Except.ok cart', store := some cart', events := [] }

/-- One cart mutation request, covering the seven mutations named by the
totals-invariant claim. -/
inductive Op where
  | add (productId : String) (quantity : ℤ)
  | update (productId : String) (quantity : ℤ)
  | remove (productId : String)
  | selectItem (productId : String) (sel : Bool)
  | selectAll (sel : Bool)
  | removeSelected
  | removeByIds (productIds : List String)

/-- Dispatch of one mutation request to the corresponding service method. -/
def applyOp (catalog : String → Option Product) (reserveOk : String → ℤ → Bool)
    (userId : String) (now : ℕ) : Op → Option Cart → OpResult
  | Op.add pid q, s => addToCart catalog reserveOk userId pid q s now
  | Op.update pid q, s => updateCartItem reserveOk userId pid q s now
  | Op.remove pid, s => removeFromCart userId pid s now
  | Op.selectItem pid b, s => toggleSelectItem userId pid b s now
  | Op.selectAll b, s => toggleSelectAll userId b s now
  | Op.removeSelected, s => removeSelectedItems userId s now
  | Op.removeByIds pids, s => removeItemsByProductIds userId pids s now

/-- Modelled from the spec: the Inventory Reservation Collaborator (its source
is not among the inspected files) "holds per-product available/reserved
counters"; `reserveStock(productId, qty)` succeeds exactly when `qty` does not
exceed the units available for that product. -/
def stockReserveOk (available : String → ℤ) : String → ℤ → Bool :=
  fun productId qty => qty ≤ available productId

/-- Derived-totals invariant of one cart snapshot. -/
def cartInv (c : Cart) : Prop :=
  c.totalItems = totalItemsOf c.items ∧ c.totalPrice = totalPriceOf c.items

/-- Every stored record satisfies the derived-totals invariant. -/
def storeInv (s : Option Cart) : Prop := ∀ c, s = some c → cartInv c

/-- No stored record has an empty item list. -/
def noEmptyRecord (s : Option Cart) : Prop := ∀ c, s = some c → c.items ≠ []

/-! Concrete fixtures used to exercise the operations on closed inputs. -/

/-- Sample catalog product with a 10 percent sale. -/
def prodP1 : Product :=
  { productId := "P1"
    productName := "Serum"
    sellingPrice := 1000
    salePercentage := some 10 }

/-- Sample catalog product with no sale. -/
def prodP2 : Product :=
  { productId := "P2"
    productName := "Cream"
    sellingPrice := 50
    salePercentage := none }

/-- Sample catalog resolving exactly P1 and P2. -/
def catalogW : String → Option Product := fun pid =>
  if pid == "P1" then some prodP1 else if pid == "P2" then some prodP2 else none

/-- Reservation oracle that always succeeds. -/
def alwaysOk : String → ℤ → Bool := fun _ _ => true

/-- Reservation oracle that always refuses. -/
def neverOk : String → ℤ → Bool := fun _ _ => false

/-- Sample cart item for product A, selected. -/
def itemA : CartItem :=
  { productId := "A"
    productName := "ItemA"
    price := 100
    originalPrice := 100
    salePercentage := 0
    quantity := 3
    addedAt := 0
    selected := some true }

/-- Sample cart item for product B, with no `selected` flag. -/
def itemB : CartItem :=
  { productId := "B"
    productName := "ItemB"
    price := 40
    originalPrice := 40
    salePercentage := 0
    quantity := 3
    addedAt := 0
    selected := none }

/-- Sample stored cart holding `itemA` and `itemB`, with correct totals. -/
def cartAB : Cart :=
  { userId := "u"
    items := [itemA, itemB]
    totalItems := 6
    totalPrice := 420
    updatedAt := 0 }

/-- Sample cart item for product P1 with quantity 2, priced with the 10
percent sale applied. -/
def itemP1q2 : CartItem :=
  { productId := "P1"
    productName := "Serum"
    price := 900
    originalPrice := 1000
    salePercentage := 10
    quantity := 2
    addedAt := 0
    selected := some true }

/-- Sample stored cart holding only `itemP1q2`. -/
def cartP1 : Cart :=
  { userId := "u"
    items := [itemP1q2]
    totalItems := 2
    totalPrice := 1800
    updatedAt := 0 }

/-! Helper lemmas. -/

theorem updateFirst_map {α β : Type} (p : α → Bool) (f : α → α) (g : α → β)
    (hg : ∀ x, g (f x) = g x) : ∀ l : List α, (updateFirst p f l).map g = l.map g
  | [] => rfl
  | x :: xs => by
    by_cases h : p x
    · simp [updateFirst, h, hg]
    · simp [updateFirst, h, updateFirst_map p f g hg xs]

theorem totalItemsOf_updateFirst (p : CartItem → Bool) (f : CartItem → CartItem)
    (hq : ∀ x, (f x).quantity = x.quantity) (l : List CartItem) :
    totalItemsOf (updateFirst p f l) = totalItemsOf l := by
  unfold totalItemsOf
  rw [updateFirst_map _ _ _ hq]

theorem totalPriceOf_updateFirst (p : CartItem → Bool) (f : CartItem → CartItem)
    (h : ∀ x, (f x).price * ((f x).quantity : ℚ) = x.price * (x.quantity : ℚ))
    (l : List CartItem) :
    totalPriceOf (updateFirst p f l) = totalPriceOf l := by
  unfold totalPriceOf
  exact congrArg List.sum
    (updateFirst_map p f (fun item => item.price * (item.quantity : ℚ)) h l)

theorem totalItemsOf_map (f : CartItem → CartItem)
    (hq : ∀ x, (f x).quantity = x.quantity) (l : List CartItem) :
    totalItemsOf (l.map f) = totalItemsOf l := by
  unfold totalItemsOf
  rw [List.map_map]
  exact congrArg List.sum (List.map_congr_left fun x _ => hq x)

theorem totalPriceOf_map (f : CartItem → CartItem)
    (h : ∀ x, (f x).price * ((f x).quantity : ℚ) = x.price * (x.quantity : ℚ))
    (l : List CartItem) :
    totalPriceOf (l.map f) = totalPriceOf l := by
  unfold totalPriceOf
  rw [List.map_map]
  exact congrArg List.sum (List.map_congr_left fun x _ => h x)

theorem updateFirst_ne_nil {α : Type} (p : α → Bool) (f : α → α) (l : List α)
    (h : l ≠ []) : updateFirst p f l ≠ [] := by
  cases l with
  | nil => exact absurd rfl h
  | cons a t => by_cases hp : p a <;> simp [updateFirst, hp]

theorem filter_updateFirst {α : Type} (p : α → Bool) (f : α → α)
    (hf : ∀ x, p (f x) = p x) (l : List α) (x : α) (h : l.filter p = [x]) :
    (updateFirst p f l).filter p = [f x] := by
  induction l with
  | nil => simp at h
  | cons a t ih =>
    by_cases hp : p a
    · rw [List.filter_cons_of_pos hp] at h
      rw [List.cons.injEq] at h
      obtain ⟨rfl, h2⟩ := h
      simp [updateFirst, hp, List.filter_cons, hf, h2]
    · rw [List.filter_cons_of_neg hp] at h
      have hp' : p a = false := by simp [hp]
      simp [updateFirst, hp', List.filter_cons, ih h]

theorem ne_nil_of_any_eq_true {α : Type} {p : α → Bool} {l : List α}
    (h : l.any p = true) : l ≠ [] := by
  intro hl
  subst hl
  simp at h

theorem ne_nil_of_find?_eq_some {α : Type} {p : α → Bool} {l : List α} {x : α}
    (h : l.find? p = some x) : l ≠ [] := by
  intro hl
  subst hl
  simp at h

theorem cartInv_recalcCart (cart : Cart) (items : List CartItem) (now : ℕ) :
    cartInv (recalcCart cart items now) := ⟨rfl, rfl⟩

theorem cartInv_emptyCart (userId : String) (now : ℕ) :
    cartInv (emptyCart userId now) := ⟨rfl, rfl⟩

theorem cartInv_getCart (userId : String) (s : Option Cart) (now : ℕ)
    (h : storeInv s) : cartInv (getCart userId s now) := by
  cases s with
  | none => exact cartInv_emptyCart userId now
  | some c => exact h c rfl

theorem cartInv_setItems (cart : Cart) (items : List CartItem) (now : ℕ)
    (h1 : cartInv cart)
    (h2 : totalItemsOf items = totalItemsOf cart.items)
    (h3 : totalPriceOf items = totalPriceOf cart.items) :
    cartInv { cart with items := items, updatedAt := now } := by
  constructor
  · show cart.totalItems = totalItemsOf items
    rw [h2]
    exact h1.1
  · show cart.totalPrice = totalPriceOf items
    rw [h3]
    exact h1.2

theorem releaseLoop_all_ok (f : String → ℤ → Bool) (l : List CartItem)
    (h : ∀ x ∈ l, f x.productId x.quantity = false) :
    releaseLoop f l =
      (true, l.map (fun it => InvEvent.release it.productId it.quantity)) := by
  induction l with
  | nil => rfl
  | cons a t ih =>
    have ha := h a (List.mem_cons_self a t)
    have ht := ih fun x hx => h x (List.mem_cons_of_mem a hx)
    simp [releaseLoop, ha, ht]

theorem releaseLoop_first_fail (f : String → ℤ → Bool) (pre : List CartItem)
    (it : CartItem) (post : List CartItem)
    (hpre : ∀ x ∈ pre, f x.productId x.quantity = false)
    (hit : f it.productId it.quantity = true) :
    releaseLoop f (pre ++ it :: post) =
      (false, pre.map (fun x => InvEvent.release x.productId x.quantity) ++
        [InvEvent.release it.productId it.quantity]) := by
  induction pre with
  | nil => simp [releaseLoop, hit]
  | cons a t ih =>
    have ha := hpre a (List.mem_cons_self a t)
    have ht := ih fun x hx => hpre x (List.mem_cons_of_mem a hx)
    simp [releaseLoop, ha, ht]

/-! Claim theorems. -/

/-- C10: `updateCartItem` validates the new quantity before anything else:
for every quantity at most zero it throws InvalidArgument
(`BadRequestException`, "Quantity must be greater than 0") even when the
product is absent from the cart or no cart record exists at all, the stored
cart is unchanged, and no inventory call is made. -/
theorem updateCartItem_validates_quantity_first
    (reserveOk : String → ℤ → Bool) (userId productId : String) (quantity : ℤ)
    (store : Option Cart) (now : ℕ) (h : quantity ≤ 0) :
    (updateCartItem reserveOk userId productId quantity store now).result =
      Except.error (CartError.badRequest "Quantity must be greater than 0") ∧
    (updateCartItem reserveOk userId productId quantity store now).store = store ∧
    (updateCartItem reserveOk userId productId quantity store now).events = [] := by
  unfold updateCartItem
  rw [if_pos h]
  exact ⟨rfl, rfl, rfl⟩

/-- Witness for C10: quantity 0 against an absent cart record throws
InvalidArgument, not NotFound. -/
theorem updateCartItem_validates_quantity_first_witness :
    (updateCartItem alwaysOk "u" "P1" 0 none 0).result =
      Except.error (CartError.badRequest "Quantity must be greater than 0") ∧
    (updateCartItem alwaysOk "u" "P1" 0 none 0).store = none ∧
    (updateCartItem alwaysOk "u" "P1" 0 none 0).events = [] :=
  updateCartItem_validates_quantity_first alwaysOk "u" "P1" 0 none 0 (by decide)

/-- C2: when the product exists, `addToCart` issues exactly one reservation
call, for the incremental quantity being added (never the resulting line
total); and when that reservation is refused it throws InsufficientStock
(`BadRequestException`) and the stored cart is identical to the state before
the call. -/
theorem addToCart_incremental_reservation
    (catalog : String → Option Product) (reserveOk : String → ℤ → Bool)
    (userId productId : String) (quantity : ℤ) (store : Option Cart) (now : ℕ)
    (product : Product) (hp : catalog productId = some product) :
    (addToCart catalog reserveOk userId productId quantity store now).events =
      [InvEvent.reserve productId quantity] ∧
    (reserveOk productId quantity = false →
      (addToCart catalog reserveOk userId productId quantity store now).result =
        Except.error (CartError.badRequest "Không đủ hàng trong kho") ∧
      (addToCart catalog reserveOk userId productId quantity store now).store =
        store) := by
  unfold addToCart
  rw [hp]
  cases hr : reserveOk productId quantity with
  | true => simp [hr]
  | false => simp [hr]

/-- Witness for C2: an existing product with every reservation refused. -/
theorem addToCart_incremental_reservation_witness :
    (addToCart catalogW neverOk "u" "P1" 2 (some cartAB) 0).events =
      [InvEvent.reserve "P1" 2] ∧
    (addToCart catalogW neverOk "u" "P1" 2 (some cartAB) 0).result =
      Except.error (CartError.badRequest "Không đủ hàng trong kho") ∧
    (addToCart catalogW neverOk "u" "P1" 2 (some cartAB) 0).store = some cartAB := by
  have h := addToCart_incremental_reservation catalogW neverOk "u" "P1" 2
    (some cartAB) 0 prodP1 rfl
  exact ⟨h.1, (h.2 rfl).1, (h.2 rfl).2⟩

/-- C8: `removeSelectedItems` retains exactly the items whose selected flag
is not true, recomputes both totals over the retained items, and issues no
inventory call. -/
theorem removeSelectedItems_keeps_unselected
    (userId : String) (store : Option Cart) (now : ℕ) :
    (removeSelectedItems userId store now).events = [] ∧
    (removeSelectedItems userId store now).result.toOption.map Cart.items =
      some ((getCart userId store now).items.filter
        (fun item => !(item.selected == some true))) ∧
    (removeSelectedItems userId store now).result.toOption.map
        (fun c => (c.totalItems, c.totalPrice)) =
      some (totalItemsOf ((getCart userId store now).items.filter
              (fun item => !(item.selected == some true))),
            totalPriceOf ((getCart userId store now).items.filter
              (fun item => !(item.selected == some true)))) :=
  ⟨rfl, rfl, rfl⟩

/-- C6: the effective price equals `round(sellingPrice - sellingPrice *
salePercentage / 100)` exactly when the sale percentage is present and
positive, and equals `sellingPrice` unchanged otherwise (null, zero or
negative); and the worked example holds: adding quantity 2 of a product with
sellingPrice 1000 and salePercentage 10 to an empty cart prices the line at
900, with totalPrice 1800 and totalItems 2. -/
theorem calculateFinalPrice_spec :
    (∀ (sellingPrice : ℚ) (sale : Option ℚ),
      calculateFinalPrice sellingPrice sale =
        match sale with
        | some p =>
            if 0 < p then (jsRound (sellingPrice - sellingPrice * p / 100) : ℚ)
            else sellingPrice
        | none => sellingPrice) ∧
    (addToCart catalogW alwaysOk "u" "P1" 2 none 0).result.toOption.map
        (fun c => (c.items.map CartItem.price, c.totalPrice, c.totalItems)) =
      some ([900], 1800, 2) := by
  constructor
  · intro sellingPrice sale
    cases sale with
    | none => rfl
    | some p =>
      by_cases hp : p ≤ 0
      · simp [calculateFinalPrice, if_pos hp, not_lt.mpr hp]
      · simp [calculateFinalPrice, if_neg hp, lt_of_not_le hp, mul_comm]
  · simp [addToCart, catalogW, prodP1, alwaysOk, getCart, emptyCart,
      calculateFinalPrice, recalcCart, totalItemsOf, totalPriceOf, updateFirst]
    norm_num [jsRound]
    exact ⟨_, rfl, rfl, rfl, rfl⟩

/-- C9: for any stored cart, the items of `getSelectedItems` (selected is
true) and the items retained by `removeSelectedItems` (selected is not true)
partition the item list: together they are a permutation of the items, each
item lies in exactly one of the two, and an item with no selected flag is
treated as unselected by both. -/
theorem selected_items_partition (userId : String) (c0 : Cart) (now : ℕ) :
    (removeSelectedItems userId (some c0) now).result.toOption.map Cart.items =
      some (c0.items.filter (fun item => !(item.selected == some true))) ∧
    (getSelectedItems c0 ++
        c0.items.filter (fun item => !(item.selected == some true))).Perm c0.items ∧
    (∀ it ∈ c0.items, it ∈ getSelectedItems c0 ↔
      it ∉ c0.items.filter (fun item => !(item.selected == some true))) ∧
    (∀ it ∈ c0.items, it.selected = none →
      it ∈ c0.items.filter (fun item => !(item.selected == some true)) ∧
      it ∉ getSelectedItems c0) := by
  refine ⟨rfl, ?_, ?_, ?_⟩
  · exact List.filter_append_perm _ c0.items
  · intro it hit
    simp [getSelectedItems, List.mem_filter, hit]
  · intro it hit hnone
    simp [getSelectedItems, List.mem_filter, hit, hnone]

/-- Witness for C9: the flagged item of the sample cart is selected and is
not among the retained items. -/
theorem selected_items_partition_witness :
    itemA ∈ getSelectedItems cartAB ↔
      itemA ∉ cartAB.items.filter (fun item => !(item.selected == some true)) :=
  (selected_items_partition "u" cartAB 0).2.2.1 itemA (by simp [cartAB])

/-- C5 counterexample: with no stored record, `toggleSelectAll` persists a
record whose item list is empty, so an empty cart can be stored. -/
theorem toggleSelectAll_persists_empty_record :
    (toggleSelectAll "u" true none 0).store = some (emptyCart "u" 0) ∧
    (emptyCart "u" 0).items = [] := ⟨rfl, rfl⟩

/-- C5 amended: every cart operation except `toggleSelectAll` leaves no
stored record with an empty item list (the record is deleted instead);
`toggleSelectAll` writes the record back even when the item list is empty. -/
theorem no_empty_record_except_toggleSelectAll
    (catalog : String → Option Product) (reserveOk : String → ℤ → Bool)
    (userId : String) (now : ℕ) (op : Op) (s : Option Cart)
    (h : noEmptyRecord s) (hop : ∀ b, op ≠ Op.selectAll b) :
    noEmptyRecord (applyOp catalog reserveOk userId now op s).store := by
  cases op with
  | add pid q =>
    simp only [applyOp]
    unfold addToCart
    cases hp : catalog pid with
    | none => exact h
    | some product =>
      cases hr : reserveOk pid q with
      | false => simp [hr]; exact h
      | true =>
        simp only [hr, if_true]
        cases hex : (getCart userId s now).items.any
            (fun item => item.productId == pid) with
        | true =>
          simp only [hex, if_true]
          intro c hc
          cases Option.some.inj hc
          exact updateFirst_ne_nil _ _ _ (ne_nil_of_any_eq_true hex)
        | false =>
          simp only [hex, Bool.false_eq_true, if_false]
          intro c hc
          cases Option.some.inj hc
          simp [recalcCart]
  | update pid q =>
    simp only [applyOp]
    unfold updateCartItem
    by_cases hq : q ≤ 0
    · rw [if_pos hq]; exact h
    · rw [if_neg hq]
      dsimp only
      cases hf : (getCart userId s now).items.find?
          (fun item => item.productId == pid) with
      | none => exact h
      | some oldItem =>
        dsimp only
        by_cases hd : q - oldItem.quantity > 0
        · rw [if_pos hd]
          cases hr : reserveOk pid (q - oldItem.quantity) with
          | false => simp [hr]; exact h
          | true =>
            simp only [hr, if_true]
            intro c hc
            cases Option.some.inj hc
            exact updateFirst_ne_nil _ _ _ (ne_nil_of_find?_eq_some hf)
        · rw [if_neg hd]
          by_cases hd' : q - oldItem.quantity < 0
          · rw [if_pos hd']
            intro c hc
            cases Option.some.inj hc
            exact updateFirst_ne_nil _ _ _ (ne_nil_of_find?_eq_some hf)
          · rw [if_neg hd']
            intro c hc
            cases Option.some.inj hc
            exact updateFirst_ne_nil _ _ _ (ne_nil_of_find?_eq_some hf)
  | remove pid =>
    simp only [applyOp]
    unfold removeFromCart
    dsimp only
    cases hf : (getCart userId s now).items.find?
        (fun item => item.productId == pid) with
    | none => exact h
    | some item =>
      dsimp only
      cases he : (removeFirst (fun it => it.productId == pid)
          (getCart userId s now).items).isEmpty with
      | true => simp [he]; intro c hc; cases hc
      | false =>
        simp only [he, Bool.false_eq_true, if_false]
        intro c hc
        cases Option.some.inj hc
        simp [recalcCart]
        intro habs
        rw [habs] at he
        simp [List.isEmpty] at he
  | selectItem pid b =>
    simp only [applyOp]
    unfold toggleSelectItem
    dsimp only
    cases hf : (getCart userId s now).items.find?
        (fun item => item.productId == pid) with
    | none => exact h
    | some item =>
      dsimp only
      intro c hc
      cases Option.some.inj hc
      exact updateFirst_ne_nil _ _ _ (ne_nil_of_find?_eq_some hf)
  | selectAll b => exact absurd rfl (hop b)
  | removeSelected =>
    simp only [applyOp]
    unfold removeSelectedItems
    dsimp only
    cases he : ((getCart userId s now).items.filter
        (fun item => !(item.selected == some true))).isEmpty with
    | true => simp [he]; intro c hc; cases hc
    | false =>
      simp only [he, Bool.false_eq_true, if_false]
      intro c hc
      cases Option.some.inj hc
      simp [recalcCart]
      simpa using he
  | removeByIds pids =>
    simp only [applyOp]
    unfold removeItemsByProductIds
    dsimp only
    cases h0 : (getCart userId s now).items.isEmpty with
    | true => simp [h0]; exact h
    | false =>
      simp only [h0, Bool.false_eq_true, if_false]
      cases he : ((getCart userId s now).items.filter
          (fun item => !(pids.contains item.productId))).isEmpty with
      | true => simp [he]; intro c hc; cases hc
      | false =>
        simp only [he, Bool.false_eq_true, if_false]
        intro c hc
        cases Option.some.inj hc
        simp [recalcCart]
        simpa using he

/-- Witness for C5 amended: removing one product from the sample two-item
cart leaves a store with no empty record. -/
theorem no_empty_record_witness :
    noEmptyRecord (applyOp catalogW alwaysOk "u" 0 (Op.remove "A")
      (some cartAB)).store :=
  no_empty_record_except_toggleSelectAll catalogW alwaysOk "u" 0 (Op.remove "A")
    (some cartAB)
    (fun c hc => by cases Option.some.inj hc; simp [cartAB])
    (fun b hb => Op.noConfusion hb)

/-- C3 counterexample: with 5 units actually available in stock, raising the
quantity of a line whose old cart quantity is 2 to 10 is refused, and the
InsufficientStock message reports 2 — the old cart quantity — rather than the
5 units actually available. -/
theorem updateCartItem_message_not_availability :
    stockReserveOk (fun _ => 5) "P1" (10 - itemP1q2.quantity) = false ∧
    (updateCartItem (stockReserveOk (fun _ => 5)) "u" "P1" 10
        (some cartP1) 0).result =
      Except.error (CartError.badRequest
        "Cannot increase quantity. Only 2 available in stock.") ∧
    "Cannot increase quantity. Only 2 available in stock." ≠
      "Cannot increase quantity. Only 5 available in stock." := by
  refine ⟨rfl, ?_, by decide⟩
  rfl

/-- C3 amended: when the new quantity exceeds the old one, `updateCartItem`
requests reservation of exactly the difference; if that reservation is
refused it throws InsufficientStock whose message reports the item's old cart
quantity (not how many units are actually available in stock), and the stored
cart — in particular the item's quantity — is unchanged. -/
theorem updateCartItem_insufficient_reports_old_quantity
    (reserveOk : String → ℤ → Bool) (userId productId : String) (quantity : ℤ)
    (s : Option Cart) (now : ℕ) (oldItem : CartItem)
    (hfind : (getCart userId s now).items.find?
        (fun item => item.productId == productId) = some oldItem)
    (hq : 0 < quantity) (hlt : oldItem.quantity < quantity)
    (hr : reserveOk productId (quantity - oldItem.quantity) = false) :
    (updateCartItem reserveOk userId productId quantity s now).result =
      Except.error (CartError.badRequest
        ("Cannot increase quantity. Only " ++ toString oldItem.quantity ++
          " available in stock.")) ∧
    (updateCartItem reserveOk userId productId quantity s now).store = s ∧
    (updateCartItem reserveOk userId productId quantity s now).events =
      [InvEvent.reserve productId (quantity - oldItem.quantity)] := by
  unfold updateCartItem
  rw [if_neg (not_le.mpr hq)]
  dsimp only
  rw [hfind]
  dsimp only
  rw [if_pos (by omega : quantity - oldItem.quantity > 0), hr]
  exact ⟨rfl, rfl, rfl⟩

/-- Witness for C3 amended: raising the sample line from 2 to 10 with every
reservation refused. -/
theorem updateCartItem_insufficient_witness :
    (updateCartItem neverOk "u" "P1" 10 (some cartP1) 0).result =
      Except.error (CartError.badRequest
        ("Cannot increase quantity. Only " ++ toString itemP1q2.quantity ++
          " available in stock.")) ∧
    (updateCartItem neverOk "u" "P1" 10 (some cartP1) 0).store = some cartP1 ∧
    (updateCartItem neverOk "u" "P1" 10 (some cartP1) 0).events =
      [InvEvent.reserve "P1" (10 - itemP1q2.quantity)] :=
  updateCartItem_insufficient_reports_old_quantity neverOk "u" "P1" 10
    (some cartP1) 0 itemP1q2 rfl (by decide) (by decide) rfl

/-- C4 counterexample: on the sample cart with items A and B, a throwing
release for A ends `clearCart` before B's release and before the delete: only
A's release call is issued and the record is still stored. -/
theorem clearCart_release_failure_aborts :
    (clearCart (fun pid _ => pid == "A") "u" (some cartAB) 0).events =
      [InvEvent.release "A" 3] ∧
    (clearCart (fun pid _ => pid == "A") "u" (some cartAB) 0).store =
      some cartAB := ⟨rfl, rfl⟩

/-- C4 amended: `clearCart` walks the items in order issuing one release call
per item for its full reserved quantity; when no release call throws it
issues exactly one call per item and then deletes the record, and when a
release call throws, the items before it have been released, the remaining
items are not released, and the record is not deleted. -/
theorem clearCart_release_behavior (releaseThrows : String → ℤ → Bool)
    (userId : String) (s : Option Cart) (now : ℕ) :
    ((∀ it ∈ (getCart userId s now).items,
        releaseThrows it.productId it.quantity = false) →
      (clearCart releaseThrows userId s now).events =
        (getCart userId s now).items.map
          (fun it => InvEvent.release it.productId it.quantity) ∧
      (clearCart releaseThrows userId s now).store = none) ∧
    (∀ pre it post, (getCart userId s now).items = pre ++ it :: post →
      (∀ x ∈ pre, releaseThrows x.productId x.quantity = false) →
      releaseThrows it.productId it.quantity = true →
      (clearCart releaseThrows userId s now).events =
        pre.map (fun x => InvEvent.release x.productId x.quantity) ++
          [InvEvent.release it.productId it.quantity] ∧
      (clearCart releaseThrows userId s now).store = s) := by
  constructor
  · intro hall
    unfold clearCart
    dsimp only
    rw [releaseLoop_all_ok releaseThrows _ hall]
    exact ⟨rfl, rfl⟩
  · intro pre it post hsplit hpre hit
    unfold clearCart
    dsimp only
    rw [hsplit, releaseLoop_first_fail releaseThrows pre it post hpre hit]
    exact ⟨rfl, rfl⟩

/-- Witness for C4 amended: with no release throwing, clearing the sample
two-item cart issues exactly two release calls of 3 units each and deletes
the record. -/
theorem clearCart_release_behavior_witness :
    (clearCart (fun _ _ => false) "u" (some cartAB) 0).events =
      [InvEvent.release "A" 3, InvEvent.release "B" 3] ∧
    (clearCart (fun _ _ => false) "u" (some cartAB) 0).store = none :=
  (clearCart_release_behavior (fun _ _ => false) "u" (some cartAB) 0).1
    (fun _ _ => rfl)

/-- C1: from any store whose record has correct derived totals, each of the
seven cart mutations (addToCart, updateCartItem, removeFromCart,
toggleSelectItem, toggleSelectAll, removeSelectedItems,
removeItemsByProductIds) leaves a store whose record has totalItems equal to
the sum of the quantities and totalPrice equal to the sum of price times
quantity over its items, and any cart it returns satisfies the same; since
the initial absent store satisfies the invariant trivially, the totals are
correct immediately after every call of every mutation sequence. -/
theorem cart_totals_invariant
    (catalog : String → Option Product) (reserveOk : String → ℤ → Bool)
    (userId : String) (now : ℕ) (op : Op) (s : Option Cart) (h : storeInv s) :
    storeInv (applyOp catalog reserveOk userId now op s).store ∧
    ∀ c, (applyOp catalog reserveOk userId now op s).result = Except.ok c →
      cartInv c := by
  cases op with
  | add pid q =>
    simp only [applyOp]
    unfold addToCart
    cases hp : catalog pid with
    | none => exact ⟨h, fun c hc => Except.noConfusion hc⟩
    | some product =>
      dsimp only
      by_cases hr : reserveOk pid q = true
      · rw [if_pos hr]
        exact ⟨fun c hc => by cases Option.some.inj hc; exact cartInv_recalcCart _ _ _,
               fun c hc => by cases Except.ok.inj hc; exact cartInv_recalcCart _ _ _⟩
      · rw [if_neg hr]
        exact ⟨h, fun c hc => Except.noConfusion hc⟩
  | update pid q =>
    simp only [applyOp]
    unfold updateCartItem
    by_cases hq : q ≤ 0
    · rw [if_pos hq]
      exact ⟨h, fun c hc => Except.noConfusion hc⟩
    · rw [if_neg hq]
      dsimp only
      cases hf : (getCart userId s now).items.find?
          (fun item => item.productId == pid) with
      | none => exact ⟨h, fun c hc => Except.noConfusion hc⟩
      | some oldItem =>
        dsimp only
        by_cases hd : q - oldItem.quantity > 0
        · rw [if_pos hd]
          by_cases hr : reserveOk pid (q - oldItem.quantity) = true
          · rw [if_pos hr]
            exact ⟨fun c hc => by cases Option.some.inj hc; exact cartInv_recalcCart _ _ _,
                   fun c hc => by cases Except.ok.inj hc; exact cartInv_recalcCart _ _ _⟩
          · rw [if_neg hr]
            exact ⟨h, fun c hc => Except.noConfusion hc⟩
        · rw [if_neg hd]
          by_cases hd' : q - oldItem.quantity < 0
          · rw [if_pos hd']
            exact ⟨fun c hc => by cases Option.some.inj hc; exact cartInv_recalcCart _ _ _,
                   fun c hc => by cases Except.ok.inj hc; exact cartInv_recalcCart _ _ _⟩
          · rw [if_neg hd']
            exact ⟨fun c hc => by cases Option.some.inj hc; exact cartInv_recalcCart _ _ _,
                   fun c hc => by cases Except.ok.inj hc; exact cartInv_recalcCart _ _ _⟩
  | remove pid =>
    simp only [applyOp]
    unfold removeFromCart
    dsimp only
    cases hf : (getCart userId s now).items.find?
        (fun item => item.productId == pid) with
    | none => exact ⟨h, fun c hc => Except.noConfusion hc⟩
    | some item =>
      dsimp only
      refine ⟨?_, ?_⟩
      · by_cases he : (removeFirst (fun it => it.productId == pid)
            (getCart userId s now).items).isEmpty = true
        · rw [if_pos he]
          intro c hc
          cases hc
        · rw [if_neg he]
          intro c hc
          cases Option.some.inj hc
          exact cartInv_recalcCart _ _ _
      · intro c hc
        cases Except.ok.inj hc
        exact cartInv_recalcCart _ _ _
  | selectItem pid b =>
    simp only [applyOp]
    unfold toggleSelectItem
    dsimp only
    cases hf : (getCart userId s now).items.find?
        (fun item => item.productId == pid) with
    | none => exact ⟨h, fun c hc => Except.noConfusion hc⟩
    | some item =>
      dsimp only
      have hcart := cartInv_getCart userId s now h
      refine ⟨fun c hc => ?_, fun c hc => ?_⟩
      · cases Option.some.inj hc
        exact cartInv_setItems _ _ _ hcart
          (totalItemsOf_updateFirst (fun item => item.productId == pid)
            (fun item => { item with selected := some b }) (fun x => rfl)
            (getCart userId s now).items)
          (totalPriceOf_updateFirst (fun item => item.productId == pid)
            (fun item => { item with selected := some b }) (fun x => rfl)
            (getCart userId s now).items)
      · cases Except.ok.inj hc
        exact cartInv_setItems _ _ _ hcart
          (totalItemsOf_updateFirst (fun item => item.productId == pid)
            (fun item => { item with selected := some b }) (fun x => rfl)
            (getCart userId s now).items)
          (totalPriceOf_updateFirst (fun item => item.productId == pid)
            (fun item => { item with selected := some b }) (fun x => rfl)
            (getCart userId s now).items)
  | selectAll b =>
    simp only [applyOp]
    unfold toggleSelectAll
    dsimp only
    have hcart := cartInv_getCart userId s now h
    refine ⟨fun c hc => ?_, fun c hc => ?_⟩
    · cases Option.some.inj hc
      exact cartInv_setItems _ _ _ hcart
        (totalItemsOf_map (fun item => { item with selected := some b })
          (fun x => rfl) (getCart userId s now).items)
        (totalPriceOf_map (fun item => { item with selected := some b })
          (fun x => rfl) (getCart userId s now).items)
    · cases Except.ok.inj hc
      exact cartInv_setItems _ _ _ hcart
        (totalItemsOf_map (fun item => { item with selected := some b })
          (fun x => rfl) (getCart userId s now).items)
        (totalPriceOf_map (fun item => { item with selected := some b })
          (fun x => rfl) (getCart userId s now).items)
  | removeSelected =>
    simp only [applyOp]
    unfold removeSelectedItems
    dsimp only
    refine ⟨?_, ?_⟩
    · by_cases he : ((getCart userId s now).items.filter
          (fun item => !(item.selected == some true))).isEmpty = true
      · rw [if_pos he]
        intro c hc
        cases hc
      · rw [if_neg he]
        intro c hc
        cases Option.some.inj hc
        exact cartInv_recalcCart _ _ _
    · intro c hc
      cases Except.ok.inj hc
      exact cartInv_recalcCart _ _ _
  | removeByIds pids =>
    simp only [applyOp]
    unfold removeItemsByProductIds
    dsimp only
    by_cases h0 : (getCart userId s now).items.isEmpty = true
    · rw [if_pos h0]
      exact ⟨h, fun c hc => Except.noConfusion hc⟩
    · rw [if_neg h0]
      by_cases he : ((getCart userId s now).items.filter
          (fun item => !(pids.contains item.productId))).isEmpty = true
      · rw [if_pos he]
        exact ⟨fun c hc => Option.noConfusion hc,
               fun c hc => by cases Except.ok.inj hc; exact cartInv_emptyCart _ _⟩
      · rw [if_neg he]
        exact ⟨fun c hc => by cases Option.some.inj hc; exact cartInv_recalcCart _ _ _,
               fun c hc => by cases Except.ok.inj hc; exact cartInv_recalcCart _ _ _⟩

/-- Witness for C1: adding a product to the empty store yields a store whose
record has correct derived totals. -/
theorem cart_totals_invariant_witness :
    storeInv (applyOp catalogW alwaysOk "u" 0 (Op.add "P1" 2) none).store :=
  (cart_totals_invariant catalogW alwaysOk "u" 0 (Op.add "P1" 2) none
    (fun c hc => by cases hc)).1

/-- C7: with the product in the catalog and the reservation accepted, if the
stored cart holds exactly one line for the product then `addToCart` leaves a
single line for it whose quantity is the old quantity plus the added one and
whose price, originalPrice and salePercentage are freshly computed from the
catalog at that call; and if the cart holds no line for the product, a new
CartItem is appended with selected set to true. -/
theorem addToCart_merge_or_append
    (catalog : String → Option Product) (reserveOk : String → ℤ → Bool)
    (userId productId : String) (quantity : ℤ) (c0 : Cart) (now : ℕ)
    (product : Product) (hp : catalog productId = some product)
    (hr : reserveOk productId quantity = true) :
    (∀ it0, c0.items.filter (fun it => it.productId == productId) = [it0] →
      (addToCart catalog reserveOk userId productId quantity
          (some c0) now).result.toOption.map
          (fun c => c.items.filter (fun it => it.productId == productId)) =
        some [{ it0 with
                quantity := it0.quantity + quantity
                price := calculateFinalPrice product.sellingPrice
                  product.salePercentage
                originalPrice := product.sellingPrice
                salePercentage := product.salePercentage.getD 0 }]) ∧
    (c0.items.filter (fun it => it.productId == productId) = [] →
      (addToCart catalog reserveOk userId productId quantity
          (some c0) now).result.toOption.map Cart.items =
        some (c0.items ++
          [{ productId := productId
             productName := product.productName
             price := calculateFinalPrice product.sellingPrice
               product.salePercentage
             originalPrice := product.sellingPrice
             salePercentage := product.salePercentage.getD 0
             quantity := quantity
             addedAt := now
             selected := some true }])) := by
  constructor
  · intro it0 hone
    have hmem : it0 ∈ c0.items.filter (fun it => it.productId == productId) := by
      rw [hone]
      exact List.mem_singleton.mpr rfl
    rw [List.mem_filter] at hmem
    have hex : c0.items.any (fun it => it.productId == productId) = true :=
      List.any_eq_true.mpr ⟨it0, hmem.1, hmem.2⟩
    unfold addToCart
    rw [hp]
    dsimp only
    rw [show getCart userId (some c0) now = c0 from rfl]
    rw [if_pos hr, hex, if_pos rfl]
    dsimp only [Except.toOption, Option.map, recalcCart]
    rw [filter_updateFirst (fun it => it.productId == productId)
      (fun item =>
        { item with
          quantity := item.quantity + quantity
          price := calculateFinalPrice product.sellingPrice product.salePercentage
          originalPrice := product.sellingPrice
          salePercentage := product.salePercentage.getD 0 })
      (fun x => rfl) c0.items it0 hone]
  · intro hnone
    have hex : c0.items.any (fun it => it.productId == productId) = false := by
      rw [List.filter_eq_nil_iff] at hnone
      rw [List.any_eq_false]
      intro x hx
      exact hnone x hx
    unfold addToCart
    rw [hp]
    dsimp only
    rw [show getCart userId (some c0) now = c0 from rfl]
    rw [if_pos hr, hex, if_neg Bool.false_ne_true]
    dsimp only [Except.toOption, Option.map, recalcCart]

/-- Witness for C7: re-adding quantity 3 of P1 to the sample cart holding 2
of P1 leaves one P1 line with quantity 5 and freshly computed prices. -/
theorem addToCart_merge_or_append_witness :
    (addToCart catalogW alwaysOk "u" "P1" 3
        (some cartP1) 0).result.toOption.map
        (fun c => c.items.filter (fun it => it.productId == "P1")) =
      some [{ itemP1q2 with
              quantity := itemP1q2.quantity + 3
              price := calculateFinalPrice prodP1.sellingPrice
                prodP1.salePercentage
              originalPrice := prodP1.sellingPrice
              salePercentage := prodP1.salePercentage.getD 0 }] :=
  (addToCart_merge_or_append catalogW alwaysOk "u" "P1" 3 cartP1 0 prodP1
    rfl rfl).1 itemP1q2 rfl

end Skinalyze
